import Mathlib

/-!
Verification of the tool-augmented streaming conversation engine of mochi-coco.

Shallow embedding of:
- `src/mochi_coco/chat/session.py` (conversation ledger),
- `src/mochi_coco/rendering/tool_aware_renderer.py` (streaming engine with
  recursive tool-call continuation),
- `src/mochi_coco/services/context_window_service.py` (context window accountant).

The tool execution gateway (`src/mochi_coco/tools/execution_service.py`) and the
tool configuration module (`src/mochi_coco/tools/config.py`) are imported by the
renderer but are not present among the sources; those two pieces are modelled
from the specification (marked `Modelled from the spec:` below).  Everything
else is translated directly from the Python sources.

Conventions:
- Python `Optional[T]` becomes `Option T`; a *dynamically attached* attribute
  (set with `obj.attr = ...` after construction, probed with `hasattr`) is
  modelled with an extra `Option` layer: `none` = attribute absent,
  `some none` = attribute present with value `None`.
- Timestamps are abstract `Nat` values supplied by the caller (`now`).
- Printing to the terminal has no state effect; the one print that the claims
  distinguish (the depth-exceeded error line) is recorded as a boolean flag.
- `save_session` performs file I/O; the embedding records each synchronous save
  in a `save_count` counter.
- Python float arithmetic for the usage percentage is idealised as `ℚ`.
-/

namespace MochiCoco

/-- Tool-call arguments: a Python dict of argument name to value, modelled as an
association list. -/
abbrev Args := List (String × String)

/-- `tool_call.function` as delivered by the backend (ollama `Message.ToolCall`):
a tool name plus arguments. -/
structure ToolFunction where
  name : String
  arguments : Args
deriving DecidableEq, Repr

/-- A tool call request embedded in a streaming assistant response. -/
structure ToolCall where
  function : ToolFunction
deriving DecidableEq, Repr

/-- The `{'function': {'name': ..., 'arguments': ...}}` record that
`_add_tool_call_to_session` attaches to the stored assistant message. -/
structure ToolCallRecord where
  name : String
  arguments : Args
deriving DecidableEq, Repr

/-- The message part of one streaming chunk (`chunk.message`): incremental
content, optional thinking block, optional tool-call requests.
`thinking` only drives printing and is carried for fidelity. -/
structure ChunkMessage where
  content : Option String
  thinking : Option String := none
  tool_calls : Option (List ToolCall) := none
deriving DecidableEq, Repr

/-- One streaming event (`ollama.ChatResponse`): a message plus a done flag. -/
structure ChatResponse where
  message : ChunkMessage
  done : Bool
deriving DecidableEq, Repr

/-- A stream item: `Except.error e` models the backend stream raising an
exception while being iterated (transport failure); `Except.ok c` is a chunk. -/
abbrev StreamItem := Except String ChatResponse

/-- `ToolExecutionResult` from `src/mochi_coco/tools/execution_service.py`.
Modelled from the spec: the dataclass fields named in §3 of the spec
(`tool_name`, `success`, `result`, `error_message`), which the renderer source
also constructs directly (`tool_aware_renderer.py` lines 176-181). -/
structure ToolExecutionResult where
  success : Bool
  result : Option String
  error_message : Option String
  tool_name : String
deriving DecidableEq, Repr

/-- `ToolExecutionPolicy` from `src/mochi_coco/tools/config.py`.
Modelled from the spec: enum with the three members named in §3. -/
inductive ToolExecutionPolicy where
  | NEVER_CONFIRM
  | ALWAYS_CONFIRM
  | CONFIRM_DESTRUCTIVE
deriving DecidableEq, Repr

/-- `ToolSettings` from `src/mochi_coco/tools/config.py`.
Modelled from the spec: enabled tool names plus an execution policy (§3).
The renderer itself only reads `execution_policy`. -/
structure ToolSettings where
  tools : List String
  execution_policy : ToolExecutionPolicy
deriving DecidableEq, Repr

/-- One stored ledger message.  `SessionMessage` is imported by the renderer
from `..chat.session`; the class itself is not among the sources, so its fields
are modelled from the spec (§3 Message) and from the construction sites in
`tool_aware_renderer.py`: `role`, `content`, `model`, plus the dynamically
attached `tool_calls` / `tool_name` attributes (`none` = attribute never set). -/
structure SessionMessage where
  role : String
  content : Option String
  model : Option String := none
  tool_calls : Option (List ToolCallRecord) := none
  tool_name : Option String := none
  timestamp : Nat := 0
deriving DecidableEq, Repr

/-- The mutable state of a `ChatSession` (`src/mochi_coco/chat/session.py`)
that the claims are about: the message list, the metadata fields
`message_count` and `updated_at`, and a counter of synchronous saves
(`save_session` calls).  The identification fields of `SessionMetadata`
(`session_id`, `model`, `created_at`) play no role in any claim. -/
structure Session where
  messages : List SessionMessage
  message_count : Nat
  updated_at : Nat
  save_count : Nat
deriving DecidableEq, Repr

/-- `ChatSession.save_session` (session.py lines 69-77): serialises to disk.
The embedding records the synchronous save. -/
def save_session (s : Session) : Session :=
  { s with save_count := s.save_count + 1 }

/-- `ChatSession.add_message` (session.py lines 57-63): append a message, set
`message_count` to the new length, refresh `updated_at`, save. -/
def add_message (s : Session) (role : String) (content : String) (now : Nat) :
    Session :=
  let messages := s.messages ++ [{ role := role, content := some content, timestamp := now }]
  save_session { s with
    messages := messages
    message_count := messages.length
    updated_at := now }

/-- `ChatSession.get_messages_for_api` (session.py lines 65-67): the ordered
role/content view sent to the backend. -/
def get_messages_for_api (s : Session) : List (String × Option String) :=
  s.messages.map (fun m => (m.role, m.content))

/-- Python truthiness of an optional string (`None` and `""` are falsy). -/
def truthyStr (o : Option String) : Bool :=
  !(o.getD "").isEmpty

/-- Python `f"{x}"` rendering of an optional string (`None` prints as "None"). -/
def pyStrOpt (o : Option String) : String :=
  match o with
  | some s => s
  | none => "None"

/-- `ToolAwareRenderer._add_tool_call_to_session` (tool_aware_renderer.py lines
207-231): append an assistant message carrying the originating tool call, then
update the count, refresh `updated_at`, save. -/
def add_tool_call_to_session (s : Session) (message : ChunkMessage)
    (tool_call : ToolCall) (model : String) (now : Nat) : Session :=
  let tool_message : SessionMessage := {
    role := "assistant"
    -- `content=message.content or ""`
    content := some (message.content.getD "")
    model := some model
    -- `tool_message.tool_calls = [{'function': {'name': ..., 'arguments': ... if ... else {}}}]`
    tool_calls := some [{ name := tool_call.function.name,
                          arguments := if tool_call.function.arguments.isEmpty
                                       then [] else tool_call.function.arguments }]
    timestamp := now }
  let messages := s.messages ++ [tool_message]
  save_session { s with
    messages := messages
    message_count := messages.length
    updated_at := now }

/-- `ToolAwareRenderer._add_tool_response_to_session` (tool_aware_renderer.py
lines 233-251): append a tool-role message whose content is the result text on
success and `"Error: " + error_message` on failure, then count/timestamp/save. -/
def add_tool_response_to_session (s : Session) (tool_name : String)
    (result : ToolExecutionResult) (now : Nat) : Session :=
  let tool_response : SessionMessage := {
    role := "tool"
    -- `content=result.result if result.success else f"Error: {result.error_message}"`
    content := if result.success then result.result
               else some ("Error: " ++ pyStrOpt result.error_message)
    model := none
    tool_name := some tool_name
    timestamp := now }
  let messages := s.messages ++ [tool_response]
  save_session { s with
    messages := messages
    message_count := messages.length
    updated_at := now }

/-! ## Tool execution gateway and confirmation flow -/

/-- A registry of tool implementations: plain callables keyed by name,
`(arguments) → text`, which may raise (`Except.error`). -/
abbrev ToolImpls := String → Option (Args → Except String String)

/-- The `confirm_callback` closure defined inside
`ToolAwareRenderer._handle_tool_call` (tool_aware_renderer.py lines 187-195).
`ui` stands for `self.confirmation_ui.confirm_tool_execution`.  The first
component is the decision returned to the gateway; the second records whether
the confirmation UI was invoked.  `CONFIRM_DESTRUCTIVE` currently falls through
to the same UI confirmation as `ALWAYS_CONFIRM` (source comment: future
enhancement, for now default to confirming). -/
def confirm_callback (policy : ToolExecutionPolicy) (ui : String → Args → Bool)
    (name : String) (args : Args) : Bool × Bool :=
  match policy with
  | .NEVER_CONFIRM => (true, false)
  | .ALWAYS_CONFIRM => (ui name args, true)
  | .CONFIRM_DESTRUCTIVE => (ui name args, true)

/-- The uniform result the gateway produces from running a tool body:
success on a returned text, captured failure on a raised exception
(`Except.error`), per spec §4.2. -/
def run_result (name : String) (f : Args → Except String String) (args : Args) :
    ToolExecutionResult :=
  match f args with
  | .ok r => { success := true, result := some r, error_message := none,
               tool_name := name }
  | .error e => { success := false, result := none, error_message := some e,
                  tool_name := name }

/-- Modelled from the spec: `ToolExecutionService.execute_tool`
(`src/mochi_coco/tools/execution_service.py` is not among the sources; spec
§4.2).  Fails closed when the tool is not registered; when the policy requires
confirmation the callback is invoked exactly once and its boolean return gates
execution (`NEVER_CONFIRM` auto-approves); a denial returns `success=false`
with a denial error message without invoking the tool body; an exception
raised by the tool body is caught and converted to `success=false` with the
exception text.  The second component of the result propagates the
UI-invocation flag of the callback. -/
def execute_tool (impls : ToolImpls) (name : String) (args : Args)
    (policy : ToolExecutionPolicy) (confirm : String → Args → Bool × Bool) :
    ToolExecutionResult × Bool :=
  match impls name with
  | none =>
      ({ success := false, result := none,
         error_message := some ("Tool not available: " ++ name),
         tool_name := name }, false)
  | some f =>
      let c := match policy with
        | .NEVER_CONFIRM => (true, false)
        | _ => confirm name args
      if c.1 then (run_result name f args, c.2)
      else
        ({ success := false, result := none,
           error_message := some "Tool execution denied by user",
           tool_name := name }, c.2)

/-- The argument dict actually passed to the gateway:
`arguments = tool_call.function.arguments if tool_call.function.arguments
else {}` (tool_aware_renderer.py line 184). -/
def effective_arguments (tool_call : ToolCall) : Args :=
  if tool_call.function.arguments.isEmpty then [] else tool_call.function.arguments

/-- `ToolAwareRenderer._handle_tool_call` (tool_aware_renderer.py lines
167-205): without an execution service, a synthetic failure result; otherwise
delegate to the gateway with the policy-driven confirmation callback.
The `gw = none` case models `self.tool_execution_service` being `None`. -/
def handle_tool_call (gw : Option ToolImpls) (tool_call : ToolCall)
    (tool_settings : ToolSettings) (ui : String → Args → Bool) :
    ToolExecutionResult × Bool :=
  match gw with
  | none =>
      ({ success := false, result := none,
         error_message := some "Tool execution service not configured",
         tool_name := tool_call.function.name }, false)
  | some impls =>
      execute_tool impls tool_call.function.name (effective_arguments tool_call)
        tool_settings.execution_policy
        (confirm_callback tool_settings.execution_policy ui)

/-! ## The tool-aware streaming render loop -/

/-- A backend client: `client.chat_stream(model, messages, tools)` produces a
fresh stream for each continuation request, as a function of the model name and
the ledger snapshot `get_messages_for_api` supplies. -/
abbrev Client := String → List (String × Option String) → List StreamItem

/-- `self.max_tool_call_depth = 5` (tool_aware_renderer.py line 31). -/
def max_tool_call_depth : Nat := 5

/-- The outcome of one `_render_with_tools` invocation.
`result` is the returned value (`Except.error` models a propagated exception
from the stream); `session` is the ledger afterwards; `depth` is
`self.tool_call_depth` after the call returns; `depthErr` records whether the
`"[Error: Maximum tool call depth exceeded]"` line was printed (the report
distinguishing depth exhaustion from other failures); `conts` counts the
continuation requests issued to the backend (instrumentation only). -/
structure RenderOut where
  result : Except String (Option ChatResponse)
  session : Session
  depth : Nat
  depthErr : Bool
  conts : Nat
deriving Repr

/-- Outcome of the per-batch loop `for tool_call in chunk.message.tool_calls`:
either an early `return continuation_result` or falling through with the
updated session. -/
inductive BatchOut where
  | early (o : RenderOut)
  | through (s : Session)
deriving Repr

/-- Outcome of the `for chunk in text_chunks` loop: an early return (a
continuation result), a raised stream exception, or normal completion with the
final chunk (if any). -/
inductive LoopOut where
  | early (o : RenderOut)
  | exn (e : String) (s : Session)
  | finished (final : Option ChatResponse) (s : Session)
deriving Repr

/-- Python truthiness of `chunk.message.tool_calls` (`None` and `[]` falsy). -/
def truthyToolCalls (o : Option (List ToolCall)) : Option (List ToolCall) :=
  match o with
  | some (tc :: tcs) => some (tc :: tcs)
  | _ => none

/-- The body of `for tool_call in chunk.message.tool_calls:`
(tool_aware_renderer.py lines 99-151).  For each call: handle it (the
`if tool_result:` guard is always taken because `_handle_tool_call` always
returns a result object), append the assistant-with-tool-calls message and the
tool-result message, and — when the result is a success or carries a truthy
result text — issue a continuation via `renderNext` and return its outcome
early, abandoning the remaining tool calls of the batch.
`confirmation_ui.show_tool_result` only prints and has no state effect. -/
def processBatch (renderNext : Session → RenderOut) (gw : Option ToolImpls)
    (ui : String → Args → Bool) (tool_settings : ToolSettings) (model : String)
    (now : Nat) (msg : ChunkMessage) :
    List ToolCall → Session → BatchOut
  | [], s => .through s
  | tool_call :: rest, s =>
      let tr := (handle_tool_call gw tool_call tool_settings ui).1
      let s1 := add_tool_call_to_session s msg tool_call model now
      let s2 := add_tool_response_to_session s1 tool_call.function.name tr now
      -- `if tool_result.success or tool_result.result:`
      if tr.success || truthyStr tr.result then
        .early (renderNext s2)
      else
        processBatch renderNext gw ui tool_settings model now msg rest s2

/-- The `for chunk in text_chunks:` loop (tool_aware_renderer.py lines 82-162):
accumulate content, process tool-call batches (possibly returning a
continuation result early), raise on a broken stream, and on a `done` chunk
remember it with its content replaced by the accumulated text.  Thinking
blocks only print and have no state effect. -/
def processChunks (renderNext : Session → RenderOut) (gw : Option ToolImpls)
    (ui : String → Args → Bool) (tool_settings : ToolSettings) (model : String)
    (now : Nat) :
    List StreamItem → String → Option ChatResponse → Session → LoopOut
  | [], _acc, final, s => .finished final s
  | .error e :: _rest, _acc, _final, s => .exn e s
  | .ok chunk :: rest, acc, final, s =>
      -- `if chunk.message.content: accumulated_text += chunk.message.content`
      let acc := acc ++ (chunk.message.content.getD "")
      match truthyToolCalls chunk.message.tool_calls with
      | some tcs =>
          match processBatch renderNext gw ui tool_settings model now
              chunk.message tcs s with
          | .early o => .early o
          | .through s =>
              -- `if chunk.done: chunk.message.content = accumulated_text; final_chunk = chunk`
              let final := if chunk.done
                then some { chunk with message := { chunk.message with content := some acc } }
                else final
              processChunks renderNext gw ui tool_settings model now rest acc final s
      | none =>
          let final := if chunk.done
            then some { chunk with message := { chunk.message with content := some acc } }
            else final
          processChunks renderNext gw ui tool_settings model now rest acc final s

/-- `ToolAwareRenderer._render_with_tools` (tool_aware_renderer.py lines
60-165), with the renderer's mutable `self.tool_call_depth` threaded through
explicitly (`depth` is its value on entry, `RenderOut.depth` its value after
the call).  The entry code increments the counter and aborts with the printed
depth error when it exceeds `max_tool_call_depth`; every exit path runs the
`finally:` decrement.  `fuel` is an artifact bounding the recursion for Lean's
termination checker only: the depth guard always fires before the fuel chosen
by `render_with_tools` can run out, so the `fuel = 0` branch is unreachable
there. -/
def render_with_tools_go (gw : Option ToolImpls) (ui : String → Args → Bool)
    (tool_settings : ToolSettings) (client : Client) (model : String)
    (now : Nat) :
    Nat → List StreamItem → Session → Nat → RenderOut
  | fuel, chunks, s, depth =>
      -- `self.tool_call_depth += 1; if self.tool_call_depth > self.max_tool_call_depth:`
      if depth + 1 > max_tool_call_depth then
        { result := .ok none, session := s, depth := depth + 1 - 1,
          depthErr := true, conts := 0 }
      else
        match fuel with
        | 0 =>
            { result := .ok none, session := s, depth := depth,
              depthErr := false, conts := 0 }
        | fuel + 1 =>
            match processChunks
                (fun s' => render_with_tools_go gw ui tool_settings client model now
                  fuel (client model (get_messages_for_api s')) s' (depth + 1))
                gw ui tool_settings model now chunks "" none s with
            | .early o =>
                -- `return continuation_result`, then `finally: self.tool_call_depth -= 1`
                { o with depth := o.depth - 1, conts := o.conts + 1 }
            | .exn e s' =>
                { result := .error e, session := s', depth := depth + 1 - 1,
                  depthErr := false, conts := 0 }
            | .finished final s' =>
                { result := .ok final, session := s', depth := depth + 1 - 1,
                  depthErr := false, conts := 0 }

/-- `_render_with_tools` entered at a given `tool_call_depth`: the fuel
`max_tool_call_depth - depth` suffices because each nested continuation enters
with the depth incremented and the depth guard aborts at
`max_tool_call_depth`. -/
def render_with_tools (gw : Option ToolImpls) (ui : String → Args → Bool)
    (tool_settings : ToolSettings) (client : Client) (model : String)
    (now : Nat) (chunks : List StreamItem) (s : Session) (depth : Nat) :
    RenderOut :=
  render_with_tools_go gw ui tool_settings client model now
    (max_tool_call_depth - depth) chunks s depth

/-! ## Context window accountant -/

/-- One entry of the model catalog (`client.list_models()`): ollama `ModelInfo`
with an optional name and an optional context length, the only fields the
accountant reads. -/
structure ModelInfo where
  name : Option String
  context_length : Option Nat
deriving DecidableEq, Repr

/-- `ContextWindowInfo` (context_window_service.py lines 22-30).  Python floats
for `percentage` are idealised as `ℚ`. -/
structure ContextWindowInfo where
  current_usage : Int
  max_context : Nat
  percentage : ℚ
  has_valid_data : Bool
  error_message : Option String := none
deriving DecidableEq, Repr

/-- A message as seen by the duck-typed scan
`_calculate_current_usage_from_history` (its parameter is an untyped `List`;
every field access is guarded by `hasattr`).  The outer `Option` models
attribute presence (`none` = `hasattr` is false), the inner one the value
(`some none` = attribute present holding `None`).  The counts are modelled as
integers, so the source's `isinstance(..., int)` checks hold by typing. -/
structure HistMessage where
  role : Option String := none
  tool_calls : Option (Option (List ToolCallRecord)) := none
  eval_count : Option (Option Int) := none
  prompt_eval_count : Option (Option Int) := none
deriving DecidableEq, Repr

/-- The `for message in reversed(messages):` scan body
(context_window_service.py lines 182-216), applied to the already-reversed
list: the first assistant message whose `tool_calls` attribute is present and
`None` and whose counts are present, non-`None` and positive yields the sum;
every other message is skipped and the scan continues. -/
def scanUsageRev : List HistMessage → Option Int
  | [] => none
  | m :: rest =>
      -- `hasattr(message, "role") and message.role == "assistant"
      --  and hasattr(message, "tool_calls") and message.tool_calls is None`
      if m.role = some "assistant" ∧ m.tool_calls = some none then
        match m.eval_count, m.prompt_eval_count with
        | some (some e), some (some p) =>
            -- `isinstance` holds by typing; `eval_count > 0 and prompt_eval_count > 0`
            if 0 < e ∧ 0 < p then some (e + p)
            else scanUsageRev rest
        | _, _ => scanUsageRev rest
      else scanUsageRev rest

/-- `ContextWindowService._calculate_current_usage_from_history`
(context_window_service.py lines 162-220): `None` for an empty history,
otherwise the backward scan.  The enclosing `try` never fires in the model
(the body is total). -/
def calculate_current_usage_from_history (messages : List HistMessage) :
    Option Int :=
  -- `if not messages: return None`
  if messages.isEmpty then none
  else scanUsageRev messages.reverse

/-- `ContextWindowService._get_current_model_context_length`
(context_window_service.py lines 107-160).  The argument is the outcome of
`self.client.list_models()`: `Except.error ()` models the call raising (the
`except` clause returns `None`).  An empty catalog, an unmatched name, and a
falsy `context_length` (`None` or `0`) all yield `none`. -/
def get_current_model_context_length (listModels : Except Unit (List ModelInfo))
    (model_name : String) : Option Nat :=
  match listModels with
  | .error _ => none
  | .ok models =>
      -- `if not models: return None`
      if models.isEmpty then none
      else
        -- `for model in models: if model.name == model_name: ...`
        match models.find? (fun m => decide (m.name = some model_name)) with
        | none => none
        | some target_model =>
            -- `if not target_model.context_length: return None`
            match target_model.context_length with
            | none => none
            | some 0 => none
            | some c => some c

/-- `ContextWindowService._create_error_info`
(context_window_service.py lines 222-241). -/
def create_error_info (error_message : String) (max_context : Nat := 0) :
    ContextWindowInfo :=
  { current_usage := 0, max_context := max_context, percentage := 0,
    has_valid_data := false, error_message := some error_message }

/-- `ContextWindowService.calculate_context_usage_on_demand`
(context_window_service.py lines 46-105).  `if not current_model` is the empty
string check; `if not max_context` covers both `None` and `0`; the percentage
guard `if max_context > 0` is kept as in the source.  The enclosing `try`
never fires in the model (the body is total), so no `"Calculation failed"`
info is ever produced. -/
def calculate_context_usage_on_demand (listModels : Except Unit (List ModelInfo))
    (current_model : String) (messages : List HistMessage) : ContextWindowInfo :=
  if current_model = "" then create_error_info "No model specified"
  else
    match get_current_model_context_length listModels current_model with
    | none => create_error_info "Model context length unavailable"
    | some 0 => create_error_info "Model context length unavailable"
    | some max_context =>
        match calculate_current_usage_from_history messages with
        | none => create_error_info "No valid context data in session" max_context
        | some current_usage =>
            let percentage : ℚ :=
              if 0 < max_context
              then (current_usage : ℚ) / (max_context : ℚ) * 100
              else 0
            { current_usage := current_usage, max_context := max_context,
              percentage := percentage, has_valid_data := true,
              error_message := none }

/-- The match predicate of the backward scan, as a standalone boolean: an
assistant message whose `tool_calls` attribute is present and `None` and whose
counts are present positive integers.  Used to relate the scan to
`List.find?`. -/
def validContextMessage (m : HistMessage) : Bool :=
  decide (m.role = some "assistant") && decide (m.tool_calls = some none) &&
    (match m.eval_count, m.prompt_eval_count with
     | some (some e), some (some p) => decide (0 < e) && decide (0 < p)
     | _, _ => false)

/-- The `eval_count + prompt_eval_count` of a matching message. -/
def contextSum (m : HistMessage) : Int :=
  match m.eval_count, m.prompt_eval_count with
  | some (some e), some (some p) => e + p
  | _, _ => 0

/-! ## Concrete fixtures used by closed theorems and witnesses -/

/-- A fresh, empty session. -/
def sessionEmpty : Session := ⟨[], 0, 0, 0⟩

/-- Two tools that always succeed, mirroring the repository test
`tests/test_multiple_tool_calls.py`. -/
def implsAB : ToolImpls := fun name =>
  if name = "tool_a" then some (fun _ => .ok "Result A")
  else if name = "tool_b" then some (fun _ => .ok "Result B")
  else none

/-- The first tool call of the multi-call batch. -/
def tcA : ToolCall := ⟨⟨"tool_a", [("x", "first")]⟩⟩

/-- The second tool call of the multi-call batch. -/
def tcB : ToolCall := ⟨⟨"tool_b", [("x", "second")]⟩⟩

/-- Settings with the auto-approving policy. -/
def settingsNever : ToolSettings := ⟨["tool_a", "tool_b", "self"], .NEVER_CONFIRM⟩

/-- Settings with the always-confirm policy. -/
def settingsAlways : ToolSettings := ⟨["tool_a", "tool_b", "self"], .ALWAYS_CONFIRM⟩

/-- A confirmation UI that approves everything. -/
def uiAllow : String → Args → Bool := fun _ _ => true

/-- A confirmation UI that denies everything. -/
def uiDeny : String → Args → Bool := fun _ _ => false

/-- A backend that answers every continuation request with a single terminal
chunk and no further tool calls. -/
def clientDone : Client := fun _ _ => [.ok ⟨⟨some "Done", none, none⟩, true⟩]

/-- A streaming batch whose single event carries two tool-call requests,
followed by a terminal chunk — the K = 2 instance of the repository test
`tests/test_multiple_tool_calls.py`. -/
def streamAB : List StreamItem :=
  [.ok ⟨⟨some "", none, some [tcA, tcB]⟩, false⟩,
   .ok ⟨⟨none, none, none⟩, true⟩]

/-- A tool that always requests itself again: every stream the backend
produces carries exactly one `self` tool call and never a terminal chunk. -/
def implsSelf : ToolImpls := fun name =>
  if name = "self" then some (fun _ => .ok "again") else none

/-- The self-requesting tool call. -/
def tcSelf : ToolCall := ⟨⟨"self", []⟩⟩

/-- The backend driving the self-requesting loop. -/
def clientSelf : Client := fun _ _ => [.ok ⟨⟨some "", none, some [tcSelf]⟩, false⟩]

/-- Scenario A catalog: one model with a 4096-token context window. -/
def catA : Except Unit (List ModelInfo) := .ok [⟨some "llama2:7b", some 4096⟩]

/-- Scenario A history: one plain assistant message with
`eval_count=150`, `prompt_eval_count=50`. -/
def msgA : HistMessage := ⟨some "assistant", some none, some (some 150), some (some 50)⟩

/-- An assistant message with valid counts whose `tool_calls` attribute was
never set (`hasattr` is false), as for any object lacking the attribute in the
duck-typed scan. -/
def msgAbsent : HistMessage := ⟨some "assistant", none, some (some 150), some (some 50)⟩

/-! ## Theorems -/

/-- Claim C8: for every sequence of N appended messages, the ledger's request
view `get_messages_for_api` returns exactly N role/content entries in append
order, with no reordering, deduplication, insertion, or omission: the view has
the same length as the message list and its i-th entry is exactly the
role/content of the i-th stored message, for every index i. -/
theorem request_view_preserves_order (s : Session) :
    (get_messages_for_api s).length = s.messages.length ∧
    ∀ i : Nat, (get_messages_for_api s)[i]? =
      (s.messages[i]?).map (fun m => (m.role, m.content)) := by
  refine ⟨by simp [get_messages_for_api], fun i => ?_⟩
  simp [get_messages_for_api]

/-- Claim C9: after every ledger-mutating append — `add_message` as well as the
renderer's direct appends `_add_tool_call_to_session` and
`_add_tool_response_to_session` — the invariant
`metadata.message_count = len(messages)` holds, `updated_at` is refreshed to
the current time, and exactly one synchronous save is triggered. -/
theorem append_refreshes_metadata_and_saves (s : Session) (role content : String)
    (now : Nat) (msg : ChunkMessage) (tool_call : ToolCall) (model : String)
    (result : ToolExecutionResult) (tool_name : String) :
    ((add_message s role content now).message_count =
        (add_message s role content now).messages.length ∧
      (add_message s role content now).updated_at = now ∧
      (add_message s role content now).save_count = s.save_count + 1) ∧
    ((add_tool_call_to_session s msg tool_call model now).message_count =
        (add_tool_call_to_session s msg tool_call model now).messages.length ∧
      (add_tool_call_to_session s msg tool_call model now).updated_at = now ∧
      (add_tool_call_to_session s msg tool_call model now).save_count = s.save_count + 1) ∧
    ((add_tool_response_to_session s tool_name result now).message_count =
        (add_tool_response_to_session s tool_name result now).messages.length ∧
      (add_tool_response_to_session s tool_name result now).updated_at = now ∧
      (add_tool_response_to_session s tool_name result now).save_count = s.save_count + 1) := by
  refine ⟨⟨?_, ?_, ?_⟩, ⟨?_, ?_, ?_⟩, ⟨?_, ?_, ?_⟩⟩ <;>
    simp [add_message, add_tool_call_to_session, add_tool_response_to_session,
      save_session]

/-- Claim C5: for every executed tool call whose result is recorded, the
renderer appends first an assistant-role message carrying the originating
`tool_calls` entry (tool name and arguments) and then a tool-role message whose
content is the result text when `success` is true and `"Error: "` concatenated
with the error message when `success` is false. -/
theorem tool_exchange_pair_appended (s : Session) (msg : ChunkMessage)
    (tool_call : ToolCall) (model : String) (now : Nat)
    (result : ToolExecutionResult) :
    ∃ assistantMsg toolMsg : SessionMessage,
      (add_tool_response_to_session
          (add_tool_call_to_session s msg tool_call model now)
          tool_call.function.name result now).messages =
        s.messages ++ [assistantMsg, toolMsg] ∧
      assistantMsg.role = "assistant" ∧
      assistantMsg.tool_calls =
        some [{ name := tool_call.function.name,
                arguments := tool_call.function.arguments }] ∧
      toolMsg.role = "tool" ∧
      toolMsg.tool_name = some tool_call.function.name ∧
      (result.success = true → toolMsg.content = result.result) ∧
      (result.success = false → ∀ e, result.error_message = some e →
        toolMsg.content = some ("Error: " ++ e)) := by
  refine ⟨{ role := "assistant", content := some (msg.content.getD ""),
            model := some model,
            tool_calls := some [{ name := tool_call.function.name,
                                  arguments := if tool_call.function.arguments.isEmpty
                                               then [] else tool_call.function.arguments }],
            tool_name := none, timestamp := now },
          { role := "tool",
            content := if result.success then result.result
                       else some ("Error: " ++ pyStrOpt result.error_message),
            model := none, tool_calls := none,
            tool_name := some tool_call.function.name, timestamp := now },
          ?_, rfl, ?_, rfl, rfl, ?_, ?_⟩
  · simp [add_tool_call_to_session, add_tool_response_to_session, save_session]
  · by_cases h : tool_call.function.arguments.isEmpty
    · simp only [h, if_true]
      rw [List.isEmpty_iff] at h
      rw [h]
    · simp [h]
  · intro hs
    simp [add_tool_response_to_session, hs]
  · intro hs e he
    simp [add_tool_response_to_session, hs, he, pyStrOpt]

/-- Witness for `tool_exchange_pair_appended` at a concrete successful result
and a concrete failed result. -/
theorem tool_exchange_pair_appended_witness :
    (∃ a t : SessionMessage,
      (add_tool_response_to_session
          (add_tool_call_to_session sessionEmpty ⟨some "", none, none⟩ tcA "m" 7)
          tcA.function.name ⟨true, some "Result A", none, "tool_a"⟩ 7).messages =
        sessionEmpty.messages ++ [a, t] ∧ t.content = some "Result A") ∧
    (∃ a t : SessionMessage,
      (add_tool_response_to_session
          (add_tool_call_to_session sessionEmpty ⟨some "", none, none⟩ tcA "m" 7)
          tcA.function.name ⟨false, none, some "boom", "tool_a"⟩ 7).messages =
        sessionEmpty.messages ++ [a, t] ∧ t.content = some ("Error: " ++ "boom")) := by
  constructor
  · obtain ⟨a, t, hm, -, -, -, -, hok, -⟩ :=
      tool_exchange_pair_appended sessionEmpty ⟨some "", none, none⟩ tcA "m" 7
        ⟨true, some "Result A", none, "tool_a"⟩
    exact ⟨a, t, hm, hok rfl⟩
  · obtain ⟨a, t, hm, -, -, -, -, -, herr⟩ :=
      tool_exchange_pair_appended sessionEmpty ⟨some "", none, none⟩ tcA "m" 7
        ⟨false, none, some "boom", "tool_a"⟩
    exact ⟨a, t, hm, herr rfl "boom" rfl⟩

/-- Claim C4: the confirmation decision is governed by the execution policy.
Under `NEVER_CONFIRM` the call is auto-approved and the confirmation UI is
never invoked; under `ALWAYS_CONFIRM` and `CONFIRM_DESTRUCTIVE` the external
synchronous yes/no decision is obtained and gates execution (denial yields the
fixed denial failure regardless of the tool body, approval runs the body); and
a denied — more generally, any unsuccessful, resultless — tool call only
records its failure pair and lets the batch loop continue with the remaining
tool calls instead of aborting. -/
theorem confirmation_policy_gates_execution :
    (∀ (impls : ToolImpls) (tool_call : ToolCall) (ts : ToolSettings)
        (ui : String → Args → Bool),
      ts.execution_policy = .NEVER_CONFIRM →
        (handle_tool_call (some impls) tool_call ts ui).2 = false ∧
        ∀ f, impls tool_call.function.name = some f →
          (handle_tool_call (some impls) tool_call ts ui).1 =
            run_result tool_call.function.name f (effective_arguments tool_call)) ∧
    (∀ (impls : ToolImpls) (tool_call : ToolCall) (ts : ToolSettings)
        (ui : String → Args → Bool),
      (ts.execution_policy = .ALWAYS_CONFIRM ∨
       ts.execution_policy = .CONFIRM_DESTRUCTIVE) →
      ∀ f, impls tool_call.function.name = some f →
        (handle_tool_call (some impls) tool_call ts ui).2 = true ∧
        (ui tool_call.function.name (effective_arguments tool_call) = false →
          (handle_tool_call (some impls) tool_call ts ui).1 =
            { success := false, result := none,
              error_message := some "Tool execution denied by user",
              tool_name := tool_call.function.name }) ∧
        (ui tool_call.function.name (effective_arguments tool_call) = true →
          (handle_tool_call (some impls) tool_call ts ui).1 =
            run_result tool_call.function.name f (effective_arguments tool_call))) ∧
    (∀ (renderNext : Session → RenderOut) (gw : Option ToolImpls)
        (ui : String → Args → Bool) (ts : ToolSettings) (model : String)
        (now : Nat) (msg : ChunkMessage) (tool_call : ToolCall)
        (rest : List ToolCall) (s : Session),
      (handle_tool_call gw tool_call ts ui).1.success = false →
      truthyStr (handle_tool_call gw tool_call ts ui).1.result = false →
        processBatch renderNext gw ui ts model now msg (tool_call :: rest) s =
          processBatch renderNext gw ui ts model now msg rest
            (add_tool_response_to_session
              (add_tool_call_to_session s msg tool_call model now)
              tool_call.function.name (handle_tool_call gw tool_call ts ui).1 now)) := by
  refine ⟨?_, ?_, ?_⟩
  · intro impls tool_call ts ui hp
    refine ⟨?_, ?_⟩
    · simp only [handle_tool_call, execute_tool, hp]
      rcases h : impls tool_call.function.name with - | f
      · rfl
      · simp
    · intro f hf
      simp only [handle_tool_call, execute_tool, hp, hf]
      simp
  · intro impls tool_call ts ui hp f hf
    have hcb : confirm_callback ts.execution_policy ui tool_call.function.name
        (effective_arguments tool_call) =
          (ui tool_call.function.name (effective_arguments tool_call), true) := by
      rcases hp with hp | hp <;> simp [confirm_callback, hp]
    have hmain : handle_tool_call (some impls) tool_call ts ui =
        (if ui tool_call.function.name (effective_arguments tool_call) then
          (run_result tool_call.function.name f (effective_arguments tool_call), true)
        else
          ({ success := false, result := none,
             error_message := some "Tool execution denied by user",
             tool_name := tool_call.function.name }, true)) := by
      simp only [handle_tool_call, execute_tool, hf]
      rcases hp with hp | hp <;> rw [hp] at hcb <;> simp only [hp, hcb]
    refine ⟨?_, ?_, ?_⟩
    · rw [hmain]
      rcases hui : ui tool_call.function.name (effective_arguments tool_call) <;>
        simp [hui]
    · intro hui
      rw [hmain, hui]
      rfl
    · intro hui
      rw [hmain, hui]
      rfl
  · intro renderNext gw ui ts model now msg tool_call rest s hs hr
    simp only [processBatch, hs, hr, Bool.or_self, Bool.false_eq_true, if_false]

/-- Witness for `confirmation_policy_gates_execution`: under `ALWAYS_CONFIRM` a
denying UI yields the fixed denial result, and under `NEVER_CONFIRM` the UI is
not consulted. -/
theorem confirmation_policy_gates_execution_witness :
    (handle_tool_call (some implsAB) tcA settingsAlways uiDeny).1 =
      { success := false, result := none,
        error_message := some "Tool execution denied by user",
        tool_name := "tool_a" } ∧
    (handle_tool_call (some implsAB) tcA settingsNever uiDeny).2 = false := by
  constructor
  · exact ((confirmation_policy_gates_execution.2.1 implsAB tcA settingsAlways uiDeny
      (Or.inl rfl) (fun _ => .ok "Result A") rfl).2.1 rfl)
  · exact (confirmation_policy_gates_execution.1 implsAB tcA settingsNever uiDeny rfl).1

/-- The backward scan is exactly `find?` of the match predicate over the
reversed list, summing the counts of the first (most recent) match. -/
lemma scanUsageRev_eq_find (l : List HistMessage) :
    scanUsageRev l = (l.find? validContextMessage).map contextSum := by
  induction l with
  | nil => rfl
  | cons m rest ih =>
      rw [scanUsageRev, List.find?]
      by_cases h1 : m.role = some "assistant" ∧ m.tool_calls = some none
      · rw [if_pos h1]
        rcases he : m.eval_count with - | (- | e) <;>
          rcases he2 : m.prompt_eval_count with - | (- | p) <;>
          try
            (have hv : validContextMessage m = false := by
               simp [validContextMessage, he, he2]
             simp only [hv, ih])
        by_cases h2 : 0 < e ∧ 0 < p
        · have hv : validContextMessage m = true := by
            simp [validContextMessage, he, he2, h1.1, h1.2, h2.1, h2.2]
          simp only [hv, if_pos h2, Option.map_some]
          simp [contextSum, he, he2]
        · have hv : validContextMessage m = false := by
            simp only [validContextMessage, he, he2]
            rcases not_and_or.mp h2 with h | h <;> simp [h]
          simp only [hv, if_neg h2, ih]
      · have hv : validContextMessage m = false := by
          simp only [validContextMessage]
          rcases not_and_or.mp h1 with h | h <;> simp [h]
        rw [if_neg h1]
        simp only [hv, ih]

/-- A successful catalog lookup never reports a zero context length
(`if not target_model.context_length: return None`). -/
lemma get_current_model_context_length_ne_zero
    (listModels : Except Unit (List ModelInfo)) (name : String) :
    get_current_model_context_length listModels name ≠ some 0 := by
  rcases listModels with - | models
  · simp [get_current_model_context_length]
  · simp only [get_current_model_context_length]
    by_cases hemp : models.isEmpty
    · rw [if_pos hemp]
      simp
    · rw [if_neg hemp]
      rcases hf : models.find? (fun m => decide (m.name = some name)) with - | target
      · simp only [hf]
        simp
      · simp only [hf]
        rcases hc : target.context_length with - | (- | c) <;> simp

/-- Counterexample to claim C2 as stated: a message whose `tool_calls`
attribute is absent (`hasattr` false) is skipped by the scan even when its
counts are valid, so this single-message history — which the claim says
selects the message and reports `current_usage = 200` — produces no usage
value, and the on-demand calculation reports invalid data instead of 200. -/
theorem scan_skips_absent_tool_calls_attr :
    calculate_current_usage_from_history [msgAbsent] = none ∧
    (calculate_context_usage_on_demand catA "llama2:7b" [msgAbsent]).has_valid_data
      = false ∧
    (calculate_context_usage_on_demand catA "llama2:7b" [msgAbsent]).current_usage
      ≠ 200 := by
  refine ⟨rfl, rfl, ?_⟩
  decide

/-- Claim C2 (amended): the Accountant scans the ledger from the end backward
and selects the most recent assistant message whose `tool_calls` attribute is
present with value null and whose `eval_count` and `prompt_eval_count` are
present positive integers (a message whose `tool_calls` attribute is absent is
skipped, like every other non-matching message, rather than aborting the
scan); the returned `current_usage` is the selected message's
`eval_count + prompt_eval_count`; and — for a non-empty model name whose
catalog lookup succeeds — no match yields `has_valid_data=false` with
error message "No valid context data in session" while still carrying the
catalog's `max_context`. -/
theorem scan_selects_most_recent_valid :
    (∀ messages : List HistMessage,
      calculate_current_usage_from_history messages =
        (messages.reverse.find? validContextMessage).map contextSum) ∧
    (∀ (listModels : Except Unit (List ModelInfo)) (name : String)
        (messages : List HistMessage) (mc : Nat), name ≠ "" →
      get_current_model_context_length listModels name = some mc →
      (calculate_current_usage_from_history messages = none →
        calculate_context_usage_on_demand listModels name messages =
          { current_usage := 0, max_context := mc, percentage := 0,
            has_valid_data := false,
            error_message := some "No valid context data in session" }) ∧
      (∀ u : Int, calculate_current_usage_from_history messages = some u →
        calculate_context_usage_on_demand listModels name messages =
          { current_usage := u, max_context := mc,
            percentage := (u : ℚ) / (mc : ℚ) * 100,
            has_valid_data := true, error_message := none })) := by
  constructor
  · intro messages
    rcases messages with - | ⟨m, rest⟩
    · rfl
    · rw [calculate_current_usage_from_history,
        if_neg (by simp : ¬(m :: rest).isEmpty = true)]
      exact scanUsageRev_eq_find _
  · intro listModels name messages mc hname hmc
    have hmc0 : mc ≠ 0 := by
      intro h0
      subst h0
      exact get_current_model_context_length_ne_zero _ _ hmc
    rcases mc with - | mc0
    · exact absurd rfl hmc0
    constructor
    · intro hnone
      rw [calculate_context_usage_on_demand, if_neg hname, hmc, hnone]
      rfl
    · intro u hu
      rw [calculate_context_usage_on_demand, if_neg hname, hmc, hu]
      simp [create_error_info]

/-- Witness for `scan_selects_most_recent_valid` at Scenario A: one assistant
message with counts 150/50 against a 4096-token model yields usage 200 with
valid data. -/
theorem scan_selects_most_recent_valid_witness :
    calculate_context_usage_on_demand catA "llama2:7b" [msgA] =
      { current_usage := 200, max_context := 4096,
        percentage := ((200 : Int) : ℚ) / ((4096 : Nat) : ℚ) * 100,
        has_valid_data := true, error_message := none } :=
  (scan_selects_most_recent_valid.2 catA "llama2:7b" [msgA] 4096
    (by decide) (by decide)).2 200 (by decide)

/-- Claim C6: whenever the model-catalog lookup fails (the catalog call
raises, the catalog is empty, no model matches the name, or the matched model
has a falsy context length), the Accountant — for a non-empty model name —
returns `has_valid_data=false`, error message "Model context length
unavailable" and `max_context=0`; being a total function it never raises the
failure to the caller. -/
theorem lookup_failure_downgraded :
    (∀ (listModels : Except Unit (List ModelInfo)) (name : String)
        (messages : List HistMessage), name ≠ "" →
      get_current_model_context_length listModels name = none →
        calculate_context_usage_on_demand listModels name messages =
          { current_usage := 0, max_context := 0, percentage := 0,
            has_valid_data := false,
            error_message := some "Model context length unavailable" }) ∧
    (∀ name : String, get_current_model_context_length (.error ()) name = none) ∧
    (∀ (models : List ModelInfo) (name : String),
      models.find? (fun m => decide (m.name = some name)) = none →
        get_current_model_context_length (.ok models) name = none) ∧
    (∀ (models : List ModelInfo) (name : String) (target : ModelInfo),
      models.find? (fun m => decide (m.name = some name)) = some target →
      (target.context_length = none ∨ target.context_length = some 0) →
        get_current_model_context_length (.ok models) name = none) := by
  refine ⟨?_, fun _ => rfl, ?_, ?_⟩
  · intro listModels name messages hname h
    rw [calculate_context_usage_on_demand, if_neg hname, h]
    rfl
  · intro models name hf
    rw [get_current_model_context_length]
    by_cases hemp : models.isEmpty
    · rw [if_pos hemp]
    · rw [if_neg hemp]
      simp only [hf]
  · intro models name target hf hc
    rw [get_current_model_context_length]
    by_cases hemp : models.isEmpty
    · rw [if_pos hemp]
    · rw [if_neg hemp]
      rcases hc with hc | hc <;> simp only [hf, hc]

/-- Witness for `lookup_failure_downgraded`: a raising catalog call is
downgraded to the fixed error info. -/
theorem lookup_failure_downgraded_witness :
    calculate_context_usage_on_demand (.error ()) "llama2:7b" [msgA] =
      { current_usage := 0, max_context := 0, percentage := 0,
        has_valid_data := false,
        error_message := some "Model context length unavailable" } :=
  lookup_failure_downgraded.1 (.error ()) "llama2:7b" [msgA] (by decide)
    (lookup_failure_downgraded.2.1 "llama2:7b")

/-- Claim C7: every `ContextWindowInfo` the Accountant computes has
`percentage = current_usage / max_context * 100` when `max_context` is
positive and `percentage = 0` when `max_context` is zero; the division is
guarded and never performed with a zero denominator. -/
theorem percentage_division_guarded (listModels : Except Unit (List ModelInfo))
    (name : String) (messages : List HistMessage) :
    ((calculate_context_usage_on_demand listModels name messages).max_context = 0 →
      (calculate_context_usage_on_demand listModels name messages).percentage = 0) ∧
    (0 < (calculate_context_usage_on_demand listModels name messages).max_context →
      (calculate_context_usage_on_demand listModels name messages).percentage =
        ((calculate_context_usage_on_demand listModels name messages).current_usage : ℚ) /
        ((calculate_context_usage_on_demand listModels name messages).max_context : ℚ)
          * 100) := by
  rw [calculate_context_usage_on_demand]
  by_cases hname : name = ""
  · rw [if_pos hname]
    exact ⟨fun _ => rfl, fun _ => by simp [create_error_info]⟩
  · rw [if_neg hname]
    rcases hmc : get_current_model_context_length listModels name with - | mc
    · exact ⟨fun _ => rfl, fun _ => by simp [create_error_info]⟩
    · rcases mc with - | mc0
      · exact ⟨fun _ => rfl, fun _ => by simp [create_error_info]⟩
      · rcases hu : calculate_current_usage_from_history messages with - | u
        · refine ⟨by simp [create_error_info], fun _ => by simp [create_error_info]⟩
        · refine ⟨by simp [create_error_info], fun _ => ?_⟩
          simp only []
          rw [if_pos (Nat.succ_pos mc0)]

/-- Witness for `percentage_division_guarded` at Scenario A, where the
context window is positive. -/
theorem percentage_division_guarded_witness :
    (calculate_context_usage_on_demand catA "llama2:7b" [msgA]).percentage =
      ((calculate_context_usage_on_demand catA "llama2:7b" [msgA]).current_usage : ℚ) /
      ((calculate_context_usage_on_demand catA "llama2:7b" [msgA]).max_context : ℚ)
        * 100 :=
  (percentage_division_guarded catA "llama2:7b" [msgA]).2 (by decide)

/-- If every continuation restores the depth counter to `d1`, an early return
of the per-batch loop carries depth `d1`. -/
lemma processBatch_early_depth {renderNext : Session → RenderOut}
    {gw : Option ToolImpls} {ui : String → Args → Bool} {ts : ToolSettings}
    {model : String} {now : Nat} {msg : ChunkMessage} (d1 : Nat)
    (hrn : ∀ s, (renderNext s).depth = d1) :
    ∀ (tcs : List ToolCall) (s : Session) (o : RenderOut),
      processBatch renderNext gw ui ts model now msg tcs s = .early o →
        o.depth = d1 := by
  intro tcs
  induction tcs with
  | nil =>
      intro s o h
      exact BatchOut.noConfusion h
  | cons tc rest ih =>
      intro s o h
      simp only [processBatch] at h
      split at h
      · injection h with h'
        subst h'
        exact hrn _
      · exact ih _ _ h

/-- If every continuation restores the depth counter to `d1`, an early return
of the chunk loop carries depth `d1`. -/
lemma processChunks_early_depth {renderNext : Session → RenderOut}
    {gw : Option ToolImpls} {ui : String → Args → Bool} {ts : ToolSettings}
    {model : String} {now : Nat} (d1 : Nat)
    (hrn : ∀ s, (renderNext s).depth = d1) :
    ∀ (chunks : List StreamItem) (acc : String) (final : Option ChatResponse)
      (s : Session) (o : RenderOut),
      processChunks renderNext gw ui ts model now chunks acc final s = .early o →
        o.depth = d1 := by
  intro chunks
  induction chunks with
  | nil =>
      intro acc final s o h
      exact LoopOut.noConfusion h
  | cons item rest ih =>
      intro acc final s o h
      rcases item with e | chunk
      · simp only [processChunks] at h
        exact LoopOut.noConfusion h
      · simp only [processChunks] at h
        rcases htc : truthyToolCalls chunk.message.tool_calls with - | tcs
        · simp only [htc] at h
          exact ih _ _ _ _ h
        · simp only [htc] at h
          rcases hb : processBatch renderNext gw ui ts model now chunk.message tcs s
            with o' | s'
          · simp only [hb] at h
            injection h with h'
            subst h'
            exact processBatch_early_depth d1 hrn _ _ _ hb
          · simp only [hb] at h
            exact ih _ _ _ _ h

/-- Every invocation of the fueled render loop restores the depth counter:
each path — depth abort, fuel exhaustion, early continuation return, stream
exception, and normal completion — undoes the entry increment. -/
lemma render_with_tools_go_depth (gw : Option ToolImpls)
    (ui : String → Args → Bool) (ts : ToolSettings) (client : Client)
    (model : String) (now : Nat) :
    ∀ (fuel : Nat) (chunks : List StreamItem) (s : Session) (depth : Nat),
      (render_with_tools_go gw ui ts client model now fuel chunks s depth).depth
        = depth := by
  intro fuel
  induction fuel with
  | zero =>
      intro chunks s depth
      rw [render_with_tools_go]
      split
      · simp
      · rfl
  | succ f ih =>
      intro chunks s depth
      rw [render_with_tools_go]
      split
      · simp
      · have hrn : ∀ s', (render_with_tools_go gw ui ts client model now f
            (client model (get_messages_for_api s')) s' (depth + 1)).depth =
              depth + 1 := fun s' => ih _ _ _
        rcases hpc : processChunks
            (fun s' => render_with_tools_go gw ui ts client model now f
              (client model (get_messages_for_api s')) s' (depth + 1))
            gw ui ts model now chunks "" none s with o | ⟨e, s'⟩ | ⟨final, s'⟩
        · simp only [hpc]
          have : o.depth = depth + 1 :=
            processChunks_early_depth (depth + 1) hrn _ _ _ _ _ hpc
          simp [this]
        · simp only [hpc]
          omega
        · simp only [hpc]
          omega

/-- Claim C10: for every invocation of the tool-aware rendering loop — whether
it completes normally with a final chunk, aborts because the depth limit is
exceeded, returns early through a continuation, or propagates a stream
exception — the renderer's `tool_call_depth` counter after the invocation
equals its value before it: every increment is matched by a decrement (the
`finally:` block runs on all exits). -/
theorem tool_call_depth_restored (gw : Option ToolImpls)
    (ui : String → Args → Bool) (ts : ToolSettings) (client : Client)
    (model : String) (now : Nat) (chunks : List StreamItem) (s : Session)
    (depth : Nat) :
    (render_with_tools gw ui ts client model now chunks s depth).depth = depth :=
  render_with_tools_go_depth gw ui ts client model now _ chunks s depth

/-- A stream whose first event carries a tool-call batch headed by a request
that executes successfully — the shape produced at every level by a tool that
always requests itself again. -/
def loopingStream (gw : Option ToolImpls) (ui : String → Args → Bool)
    (ts : ToolSettings) (stream : List StreamItem) : Prop :=
  ∃ (msg : ChunkMessage) (dn : Bool) (rest : List StreamItem)
    (tc : ToolCall) (tcs : List ToolCall),
    stream = .ok ⟨msg, dn⟩ :: rest ∧
    msg.tool_calls = some (tc :: tcs) ∧
    (handle_tool_call gw tc ts ui).1.success = true

/-- Appending a tool-call/tool-result pair grows the ledger by two. -/
lemma pair_append_length (s : Session) (msg : ChunkMessage) (tc : ToolCall)
    (model : String) (now : Nat) (tr : ToolExecutionResult) :
    (add_tool_response_to_session (add_tool_call_to_session s msg tc model now)
      tc.function.name tr now).messages.length = s.messages.length + 2 := by
  simp [add_tool_call_to_session, add_tool_response_to_session, save_session]

/-- When every backend stream keeps requesting a successful tool call, the
fueled render loop — entered with `d + f = max_tool_call_depth` — issues
exactly `f` further continuations, appends exactly one tool exchange pair per
completed sub-invocation, prints the depth-exceeded report, returns `None`,
and restores the depth counter. -/
lemma render_go_selfloop (gw : Option ToolImpls) (ui : String → Args → Bool)
    (ts : ToolSettings) (client : Client) (model : String) (now : Nat)
    (H : ∀ msgs, loopingStream gw ui ts (client model msgs)) :
    ∀ (f d : Nat), d + f = max_tool_call_depth →
      ∀ (s : Session) (chunks : List StreamItem),
        loopingStream gw ui ts chunks →
        (render_with_tools_go gw ui ts client model now f chunks s d).result
            = .ok none ∧
        (render_with_tools_go gw ui ts client model now f chunks s d).depthErr
            = true ∧
        (render_with_tools_go gw ui ts client model now f chunks s d).depth = d ∧
        (render_with_tools_go gw ui ts client model now f chunks s d).conts = f ∧
        (render_with_tools_go gw ui ts client model now f chunks s
            d).session.messages.length = s.messages.length + 2 * f := by
  intro f
  induction f with
  | zero =>
      intro d hd s chunks hc
      have hgt : d + 1 > max_tool_call_depth := by omega
      rw [render_with_tools_go, if_pos hgt]
      refine ⟨rfl, rfl, ?_, rfl, ?_⟩ <;> simp
  | succ f ih =>
      intro d hd s chunks hc
      obtain ⟨msg, dn, rest, tc, tcs, hstream, htc, hsucc⟩ := hc
      subst hstream
      have hng : ¬ (d + 1 > max_tool_call_depth) := by omega
      have htr : truthyToolCalls msg.tool_calls = some (tc :: tcs) := by
        rw [htc]
        rfl
      obtain ⟨h1, h2, h3, h4, h5⟩ := ih (d + 1) (by omega)
        (add_tool_response_to_session
          (add_tool_call_to_session s msg tc model now)
          tc.function.name (handle_tool_call gw tc ts ui).1 now)
        (client model (get_messages_for_api
          (add_tool_response_to_session
            (add_tool_call_to_session s msg tc model now)
            tc.function.name (handle_tool_call gw tc ts ui).1 now)))
        (H _)
      rw [render_with_tools_go, if_neg hng]
      simp only [processChunks, htr, processBatch, hsucc, Bool.true_or, if_true]
      refine ⟨h1, h2, by simp [h3], by simp [h4], ?_⟩
      rw [h5, pair_append_length]
      omega

/-- Claim C3: for every backend whose streams each carry a tool call that
triggers a further continuation (a tool that always requests itself again),
the Engine terminates within the configured maximum depth (`max_tool_call_depth
= 5`) of continuations: it issues exactly five continuation requests, reports
the depth-exceeded error (a report distinct from stream failures, which
surface as exceptions, and from normal completion), appends no terminal
assistant message in the aborted invocation — the ledger grows by exactly one
tool exchange pair per completed sub-invocation and nothing more — and
restores the depth counter instead of recursing unboundedly. -/
theorem self_looping_tool_depth_bounded (gw : Option ToolImpls)
    (ui : String → Args → Bool) (ts : ToolSettings) (client : Client)
    (model : String) (now : Nat) (s : Session) (chunks : List StreamItem)
    (H : ∀ msgs, loopingStream gw ui ts (client model msgs))
    (H0 : loopingStream gw ui ts chunks) :
    (render_with_tools gw ui ts client model now chunks s 0).result = .ok none ∧
    (render_with_tools gw ui ts client model now chunks s 0).depthErr = true ∧
    (render_with_tools gw ui ts client model now chunks s 0).conts
        = max_tool_call_depth ∧
    (render_with_tools gw ui ts client model now chunks s 0).session.messages.length
        = s.messages.length + 2 * max_tool_call_depth ∧
    (render_with_tools gw ui ts client model now chunks s 0).depth = 0 := by
  obtain ⟨h1, h2, h3, h4, h5⟩ :=
    render_go_selfloop gw ui ts client model now H max_tool_call_depth 0 rfl
      s chunks H0
  exact ⟨h1, h2, h4, h5, h3⟩

/-- Witness for `self_looping_tool_depth_bounded`: the concrete `self` tool
that always requests itself again, starting from an empty session. -/
theorem self_looping_tool_depth_bounded_witness :
    (render_with_tools (some implsSelf) uiAllow settingsNever clientSelf "m" 7
        (clientSelf "m" []) sessionEmpty 0).result = .ok none ∧
    (render_with_tools (some implsSelf) uiAllow settingsNever clientSelf "m" 7
        (clientSelf "m" []) sessionEmpty 0).depthErr = true ∧
    (render_with_tools (some implsSelf) uiAllow settingsNever clientSelf "m" 7
        (clientSelf "m" []) sessionEmpty 0).conts = max_tool_call_depth ∧
    (render_with_tools (some implsSelf) uiAllow settingsNever clientSelf "m" 7
        (clientSelf "m" []) sessionEmpty 0).session.messages.length
        = sessionEmpty.messages.length + 2 * max_tool_call_depth ∧
    (render_with_tools (some implsSelf) uiAllow settingsNever clientSelf "m" 7
        (clientSelf "m" []) sessionEmpty 0).depth = 0 :=
  self_looping_tool_depth_bounded (some implsSelf) uiAllow settingsNever
    clientSelf "m" 7 sessionEmpty (clientSelf "m" [])
    (fun _ => ⟨⟨some "", none, some [tcSelf]⟩, false, [], tcSelf, [],
      rfl, rfl, rfl⟩)
    ⟨⟨some "", none, some [tcSelf]⟩, false, [], tcSelf, [], rfl, rfl, rfl⟩

/-- Claim C1: the claim fails on the code.  In the K = 2 streaming batch of
`streamAB` (one event carrying requests for `tool_a` and `tool_b`, both
enabled, both succeeding, policy `NEVER_CONFIRM`), the engine appends only the
single `(assistant-with-tool_calls, tool-result)` pair for `tool_a` — two
ledger messages, one tool-role message, none mentioning `tool_b` — and issues
the continuation immediately, never confirming or executing `tool_b`.  The
claim demands two pairs (four messages) in the ledger before any continuation
is issued.  The repository's own test
`tests/test_multiple_tool_calls.py` documents this as a bug, and spec §9 calls
the early return a defect, so the code, not the claim, is wrong. -/
theorem multi_tool_batch_only_first_processed :
    (render_with_tools (some implsAB) uiAllow settingsNever clientDone "m" 7
        streamAB sessionEmpty 0).session.messages.length = 2 ∧
    ((render_with_tools (some implsAB) uiAllow settingsNever clientDone "m" 7
        streamAB sessionEmpty 0).session.messages.filter
          (fun m => m.role == "tool")).length = 1 ∧
    ((render_with_tools (some implsAB) uiAllow settingsNever clientDone "m" 7
        streamAB sessionEmpty 0).session.messages.filter
          (fun m => m.tool_name == some "tool_b")).length = 0 ∧
    (render_with_tools (some implsAB) uiAllow settingsNever clientDone "m" 7
        streamAB sessionEmpty 0).conts = 1 := by
  refine ⟨rfl, rfl, rfl, rfl⟩

end MochiCoco
